import Mathlib

/-!
Verification of the SceneManager / ViewManager core of a small OpenGL
still-life renderer.  The C++ sources (Source/SceneManager.cpp and
Source/ViewManager.cpp) are shallowly embedded below: registry state is a
structure threaded explicitly, GPU and shader side effects become explicit
effect lists, a dereference of a null shader binder becomes Except.error,
and float quantities become exact rationals or reals.
-/

/-! ## Data model (SceneManager.h state embedded) -/

/-- Real 3-vector, used for glm vec3 parameters of transformations. -/
abbrev V3 : Type := ℝ × ℝ × ℝ

/-- Rational 3-vector: float color and light constants in the source are
decimal literals, modelled exactly in the rationals. -/
abbrev Q3 : Type := ℚ × ℚ × ℚ

/-- Real 4x4 matrix, used for glm mat4 values. -/
abbrev Mat4 : Type := Matrix (Fin 4) (Fin 4) ℝ

/-- OBJECT_MATERIAL from SceneManager.h: reflectance triple plus tag. -/
structure OBJECT_MATERIAL where
  diffuseColor : Q3
  specularColor : Q3
  shininess : ℚ
  tag : String
deriving DecidableEq

/-- One entry of the m_textureIDs array: GPU handle plus tag. -/
structure TextureEntry where
  ID : Nat
  tag : String
deriving DecidableEq

/-- One shader uniform push through the ShaderManager, the sole channel
between scene logic and the rendering backend. -/
inductive PushOp where
  | mat4 (name : String) (value : Mat4)
  | int (name : String) (value : Int)
  | sampler2D (name : String) (value : Int)
  | float (name : String) (value : ℚ)
  | vec2 (name : String) (value : ℚ × ℚ)
  | vec3 (name : String) (value : Q3)
  | vec4 (name : String) (value : ℚ × ℚ × ℚ × ℚ)
  | bool (name : String) (value : Bool)

/-- The mesh primitive kinds of the ShapeMeshes collaborator. -/
inductive MeshKind where
  | plane
  | cylinder
  | sphere
  | cone
  | box
  | taperedCylinder
  | torus
deriving DecidableEq

/-- An observable side effect of scene preparation or rendering: a shader
uniform push, a mesh load request, a texture bind, or a mesh draw call. -/
inductive Effect where
  | push (op : PushOp)
  | meshLoad (m : MeshKind)
  | texBind (unit : Nat) (id : Nat)
  | draw (m : MeshKind)

/-- The SceneManager state: whether m_pShaderManager is NULL, the texture
registry m_textureIDs (its length is m_loadedTextures), the material list
m_objectMaterials, and a fresh-name counter modelling glGenTextures. -/
structure SceneManager where
  shaderNull : Bool
  textureIDs : List TextureEntry
  objectMaterials : List OBJECT_MATERIAL
  nextTexHandle : Nat

/-! ## Texture registry (CreateGLTexture, BindGLTextures, lookups) -/

/-- CreateGLTexture.  The image-decoding collaborator (stbi_load) is an
input: none models decode failure, some (w, h, channels) a decoded image.
glGenTextures is modelled by the fresh-name counter; on 3 or 4 channels the
entry is appended at index m_loadedTextures, on any other channel count the
function returns false before registering (lines 99-103 of the source). -/
def SceneManager.CreateGLTexture (sm : SceneManager)
    (decoded : Option (Nat × Nat × Int)) (tag : String) :
    Bool × SceneManager :=
  match decoded with
  | none => (false, sm)
  | some (_, _, colorChannels) =>
    let textureID := sm.nextTexHandle
    let sm1 := { sm with nextTexHandle := sm.nextTexHandle + 1 }
    if colorChannels = 3 ∨ colorChannels = 4 then
      (true, { sm1 with textureIDs := sm1.textureIDs ++ [⟨textureID, tag⟩] })
    else
      (false, sm1)

/-- The loop body of BindGLTextures: texture at index i is bound to
texture unit GL_TEXTURE0 + i, here recorded as the pair (i, ID). -/
def bindLoop : List TextureEntry → Nat → List (Nat × Nat)
  | [], _ => []
  | e :: rest, i => (i, e.ID) :: bindLoop rest (i + 1)

/-- BindGLTextures: bind every registered texture, in registration order,
to sequential texture units starting at 0. -/
def SceneManager.BindGLTextures (sm : SceneManager) : List (Nat × Nat) :=
  bindLoop sm.textureIDs 0

/-- The while loop of FindTextureID: first-match linear scan returning the
GPU handle, with sentinel -1. -/
def findTextureIDLoop : List TextureEntry → String → Int
  | [], _ => -1
  | e :: rest, tag =>
    if e.tag = tag then (e.ID : Int) else findTextureIDLoop rest tag

/-- FindTextureID: handle of the first entry with the given tag, else -1. -/
def SceneManager.FindTextureID (sm : SceneManager) (tag : String) : Int :=
  findTextureIDLoop sm.textureIDs tag

/-- The while loop of FindTextureSlot, tracking the running index. -/
def findTextureSlotLoop : List TextureEntry → String → Int → Int
  | [], _, _ => -1
  | e :: rest, tag, index =>
    if e.tag = tag then index else findTextureSlotLoop rest tag (index + 1)

/-- FindTextureSlot: index of the first entry with the given tag, else -1. -/
def SceneManager.FindTextureSlot (sm : SceneManager) (tag : String) : Int :=
  findTextureSlotLoop sm.textureIDs tag 0

/-! ## Material registry (FindMaterial, DefineObjectMaterials) -/

/-- The while loop of FindMaterial: on the first tag match it copies the
diffuse color, specular color and shininess (not the tag) into the output
parameter; otherwise the output parameter is left untouched. -/
def findMaterialLoop : List OBJECT_MATERIAL → String → OBJECT_MATERIAL →
    OBJECT_MATERIAL
  | [], _, material => material
  | m :: rest, tag, material =>
    if m.tag = tag then
      { material with
        diffuseColor := m.diffuseColor
        specularColor := m.specularColor
        shininess := m.shininess }
    else findMaterialLoop rest tag material

/-- FindMaterial, lines 214-239 of the source: returns false only when the
material list is empty; on a non-empty list it runs the scan loop and then
returns true unconditionally, whether or not any tag matched.  The pair is
(return value, final value of the by-reference output parameter). -/
def SceneManager.FindMaterial (sm : SceneManager) (tag : String)
    (material : OBJECT_MATERIAL) : Bool × OBJECT_MATERIAL :=
  if sm.objectMaterials.length = 0 then
    (false, material)
  else
    (true, findMaterialLoop sm.objectMaterials tag material)

/-! ## glm matrix builders used by SetTransformations -/

/-- glm radians: degrees times pi over 180. -/
noncomputable def glmRadians (degrees : ℝ) : ℝ := degrees * (Real.pi / 180)

/-- glm scale: the diagonal scaling matrix. -/
noncomputable def glmScale (v : V3) : Mat4 :=
  !![v.1, 0, 0, 0;
     0, v.2.1, 0, 0;
     0, 0, v.2.2, 0;
     0, 0, 0, 1]

/-- glm translate: identity with the translation in the last column
(column-vector convention, as glm uses). -/
noncomputable def glmTranslate (v : V3) : Mat4 :=
  !![1, 0, 0, v.1;
     0, 1, 0, v.2.1;
     0, 0, 1, v.2.2;
     0, 0, 0, 1]

/-- glm rotate: the axis-angle rotation matrix, built exactly as glm does:
c = cos angle, s = sin angle, the axis is normalized, and the entries follow
the Rodrigues form c I + (1-c) a aT + s cross(a). -/
noncomputable def glmRotate (angle : ℝ) (axis : V3) : Mat4 :=
  let c := Real.cos angle
  let s := Real.sin angle
  let n := Real.sqrt (axis.1 ^ 2 + axis.2.1 ^ 2 + axis.2.2 ^ 2)
  let x := axis.1 / n
  let y := axis.2.1 / n
  let z := axis.2.2 / n
  !![c + x * x * (1 - c), x * y * (1 - c) - z * s, x * z * (1 - c) + y * s, 0;
     y * x * (1 - c) + z * s, c + y * y * (1 - c), y * z * (1 - c) - x * s, 0;
     z * x * (1 - c) - y * s, z * y * (1 - c) + x * s, c + z * z * (1 - c), 0;
     0, 0, 0, 1]

/-- The model matrix computed by SetTransformations, line 271 of the
source: modelView = translation * rotationZ * rotationY * rotationX *
scale, each factor built by the corresponding glm call on the degree
arguments. -/
noncomputable def modelMatrix (scaleXYZ : V3) (XrotationDegrees
    YrotationDegrees ZrotationDegrees : ℝ) (positionXYZ : V3) : Mat4 :=
  let scale := glmScale scaleXYZ
  let rotationX := glmRotate (glmRadians XrotationDegrees) (1, 0, 0)
  let rotationY := glmRotate (glmRadians YrotationDegrees) (0, 1, 0)
  let rotationZ := glmRotate (glmRadians ZrotationDegrees) (0, 0, 1)
  let translation := glmTranslate positionXYZ
  translation * rotationZ * rotationY * rotationX * scale

/-! ## Shader state setters -/

/-- SetTransformations: push the composed model matrix, skipped silently
when the shader binder is null. -/
noncomputable def SceneManager.SetTransformations (sm : SceneManager) (scaleXYZ : V3)
    (XrotationDegrees YrotationDegrees ZrotationDegrees : ℝ)
    (positionXYZ : V3) : List PushOp :=
  if sm.shaderNull then []
  else [PushOp.mat4 "model" (modelMatrix scaleXYZ XrotationDegrees
    YrotationDegrees ZrotationDegrees positionXYZ)]

/-- SetShaderColor: disable texturing and push the flat color, skipped
silently when the shader binder is null. -/
def SceneManager.SetShaderColor (sm : SceneManager)
    (r g b a : ℚ) : List PushOp :=
  if sm.shaderNull then []
  else [PushOp.int "bUseTexture" 0, PushOp.vec4 "objectColor" (r, g, b, a)]

/-- SetShaderTexture: enable texturing and push the slot found for the tag,
with no validity check on the lookup result; skipped silently when the
shader binder is null. -/
def SceneManager.SetShaderTexture (sm : SceneManager)
    (textureTag : String) : List PushOp :=
  if sm.shaderNull then []
  else [PushOp.int "bUseTexture" 1,
    PushOp.sampler2D "objectTexture" (sm.FindTextureSlot textureTag)]

/-- SetTextureUVScale: push the UV scale, skipped silently when the shader
binder is null. -/
def SceneManager.SetTextureUVScale (sm : SceneManager)
    (u v : ℚ) : List PushOp :=
  if sm.shaderNull then []
  else [PushOp.vec2 "UVscale" (u, v)]

/-- The default-constructed local OBJECT_MATERIAL of SetShaderMaterial. -/
def localMaterial : OBJECT_MATERIAL := ⟨(0, 0, 0), (0, 0, 0), 0, ""⟩

/-- SetShaderMaterial, lines 345-361 of the source: when the material list
is non-empty and FindMaterial returns true, the three material uniforms are
pushed through m_pShaderManager with NO null check, so a null shader binder
is dereferenced here, modelled as Except.error. -/
def SceneManager.SetShaderMaterial (sm : SceneManager)
    (materialTag : String) : Except Unit (List PushOp) :=
  if sm.objectMaterials.length > 0 then
    let found := sm.FindMaterial materialTag localMaterial
    if found.1 = true then
      if sm.shaderNull then Except.error ()
      else Except.ok
        [PushOp.vec3 "material.diffuseColor" found.2.diffuseColor,
         PushOp.vec3 "material.specularColor" found.2.specularColor,
         PushOp.float "material.shininess" found.2.shininess]
    else Except.ok []
  else Except.ok []

/-! ## Scene preparation (DefineObjectMaterials, SetupSceneLights,
LoadSceneTextures, PrepareScene) -/

/-- DefineObjectMaterials: push_back the six scene materials, in source
order (lines 418-467). -/
def SceneManager.DefineObjectMaterials (sm : SceneManager) : SceneManager :=
  { sm with objectMaterials := sm.objectMaterials ++
    [⟨(40.4, 0.4, 0.0), (50.7, 50.7, 40.6), 90.0, "metal"⟩,
     ⟨(0.2, 0.2, 0.3), (0.0, 0.0, 0.0), 0.1, "paper"⟩,
     ⟨(0.2, 0.2, 0.2), (21.0, 16.0, 11.0), 95.0, "glass"⟩,
     ⟨(0.4, 0.4, 0.4), (0.2, 0.2, 0.2), 30.0, "plate"⟩,
     ⟨(0.8, 0.8, 0.9), (0.0, 0.0, 0.0), 2.0, "backdrop"⟩,
     ⟨(0.4, 0.2, 0.4), (0.1, 0.05, 0.1), 0.55, "apple"⟩] }

/-- SetupSceneLights, lines 475-506: every push goes straight through
m_pShaderManager with NO null check, so a null shader binder is
dereferenced at the very first push, modelled as Except.error. -/
def SceneManager.SetupSceneLights (sm : SceneManager) :
    Except Unit (List PushOp) :=
  if sm.shaderNull then Except.error ()
  else
    let lightIntensity : ℚ := 0.8
    Except.ok
      [PushOp.bool "bUseLighting" true,
       PushOp.vec3 "directionalLight.direction" (-1.0, -1.0, -0.3),
       PushOp.vec3 "directionalLight.ambient"
         (0.4 * lightIntensity, 0.4 * lightIntensity, 0.35 * lightIntensity),
       PushOp.vec3 "directionalLight.diffuse"
         (1.0 * lightIntensity, 0.85 * lightIntensity, 0.65 * lightIntensity),
       PushOp.vec3 "directionalLight.specular"
         (0.9 * lightIntensity, 0.8 * lightIntensity, 0.6 * lightIntensity),
       PushOp.bool "directionalLight.bActive" true,
       PushOp.vec3 "pointLights[0].position" (-4.0, 5.0, 2.0),
       PushOp.vec3 "pointLights[0].ambient" (0.15, 0.15, 0.15),
       PushOp.vec3 "pointLights[0].diffuse" (0.25, 0.25, 0.3),
       PushOp.vec3 "pointLights[0].specular" (0.1, 0.1, 0.1),
       PushOp.bool "pointLights[0].bActive" true,
       PushOp.vec3 "pointLights[1].position" (2.0, 6.0, -3.0),
       PushOp.vec3 "pointLights[1].ambient" (0.2, 0.18, 0.15),
       PushOp.vec3 "pointLights[1].diffuse" (0.45, 0.4, 0.35),
       PushOp.vec3 "pointLights[1].specular" (0.5, 0.4, 0.3),
       PushOp.bool "pointLights[1].bActive" true]

/-- The ten (file, tag) pairs loaded by LoadSceneTextures, in source
order. -/
def sceneTextureFiles : List (String × String) :=
  [("textures/bookcover.jpg", "bookcover_texture"),
   ("textures/bookside.jpg", "bookside_texture"),
   ("textures/counter.jpg", "counter_texture"),
   ("textures/pages.jpg", "pages_texture"),
   ("textures/wall.jpg", "wall_texture"),
   ("textures/can.jpg", "can_texture"),
   ("textures/canlid.jpg", "canlid_texture"),
   ("textures/apple.jpg", "apple_texture"),
   ("textures/carbonated.jpg", "carbonated_texture"),
   ("textures/foam.jpg", "foam_texture")]

/-- LoadSceneTextures: run the ten CreateGLTexture calls (the decode
collaborator is the explicit argument; failed loads are merely logged and
skipped), then BindGLTextures. -/
def SceneManager.LoadSceneTextures (sm : SceneManager)
    (decode : String → Option (Nat × Nat × Int)) :
    List Effect × SceneManager :=
  let sm1 := sceneTextureFiles.foldl
    (fun s ft => (s.CreateGLTexture (decode ft.1) ft.2).2) sm
  ((sm1.BindGLTextures).map (fun b => Effect.texBind b.1 b.2), sm1)

/-- The sequence of mesh load requests issued by PrepareScene, lines
534-543 of the source, in order: plane, cylinder, sphere, cone, box,
tapered cylinder, plane again, torus. -/
def prepareSceneMeshLoads : List MeshKind :=
  [MeshKind.plane, MeshKind.cylinder, MeshKind.sphere, MeshKind.cone,
   MeshKind.box, MeshKind.taperedCylinder, MeshKind.plane, MeshKind.torus]

/-- PrepareScene: define the materials, set up the lights (which
dereferences the shader binder), issue the mesh load requests, then load
and bind all textures.  Returns the effect list and the final state. -/
def SceneManager.PrepareScene (sm : SceneManager)
    (decode : String → Option (Nat × Nat × Int)) :
    Except Unit (List Effect × SceneManager) := do
  let sm1 := sm.DefineObjectMaterials
  let lightPushes ← sm1.SetupSceneLights
  let (texEffects, sm2) := sm1.LoadSceneTextures decode
  Except.ok (lightPushes.map Effect.push ++
    prepareSceneMeshLoads.map Effect.meshLoad ++ texEffects, sm2)

/-! ## RenderScene -/

/-- Wrap a list of uniform pushes as effects. -/
def pushes (ops : List PushOp) : List Effect := ops.map Effect.push

/-- RenderScene, lines 555-750 of the source: the fixed ordered sequence of
draw directives, each transcribed with its literal transform, shading and
mesh arguments.  The local rotation variables stay 0 except where a literal
is passed.  SetShaderMaterial may dereference a null shader binder, hence
the Except. -/
noncomputable def SceneManager.RenderScene (sm : SceneManager) :
    Except Unit (List Effect) := do
  -- the plane (counter top)
  let d1 := pushes (sm.SetTransformations (50, 1, 20) 0 0 0 (0, -0.6, 0) ++
    sm.SetShaderTexture "counter_texture" ++ sm.SetTextureUVScale 2 2 ++
    sm.SetShaderTexture "plate") ++ [Effect.draw MeshKind.plane]
  -- sparkling beverage can, main cylinder
  let d2 := pushes (sm.SetTransformations (1.5, 8, 1.5) 0 0 0 (-3, 2, 0) ++
    sm.SetShaderTexture "can_texture" ++ sm.SetTextureUVScale 1 1 ++
    sm.SetShaderTexture "glass") ++ [Effect.draw MeshKind.cylinder]
  -- sparkling beverage can, top lid
  let d3 := pushes (sm.SetTransformations (1.45, 0.001, 1.45) 0 75 0
    (-3, 10, 0) ++ sm.SetShaderTexture "canlid_texture" ++
    sm.SetTextureUVScale 1 1 ++ sm.SetShaderTexture "glass") ++
    [Effect.draw MeshKind.cylinder]
  -- cup stem cylinder
  let m4 ← sm.SetShaderMaterial "glass"
  let d4 := pushes (sm.SetTransformations (0.25, 1, 0.25) 0 0 0
    (-6, 3.4, 3) ++ sm.SetShaderColor 1 1 1 0.3 ++ m4) ++
    [Effect.draw MeshKind.cylinder]
  -- cup bottom base cylinder
  let m5 ← sm.SetShaderMaterial "glass"
  let d5 := pushes (sm.SetTransformations (1.3, 1, 1.3) 0 0 0 (-6, 2, 3) ++
    sm.SetShaderColor 1 1 1 0.4 ++ m5) ++ [Effect.draw MeshKind.cylinder]
  -- cup top tapered cylinder
  let m6 ← sm.SetShaderMaterial "glass"
  let d6 := pushes (sm.SetTransformations (1.4, 1.5, 1.4) 0 0 0
    (-6, 6.3, 3) ++ sm.SetShaderColor 1 1 1 0.7 ++ m6) ++
    [Effect.draw MeshKind.taperedCylinder]
  -- cup top middle cylinder
  let m7 ← sm.SetShaderMaterial "glass"
  let d7 := pushes (sm.SetTransformations (1.4, 0.5, 1.4) 0 0 0
    (-6, 5.80, 3) ++ sm.SetShaderColor 1 1 1 0.7 ++ m7) ++
    [Effect.draw MeshKind.cylinder]
  -- cup round sphere
  let m8 ← sm.SetShaderMaterial "glass"
  let d8 := pushes (sm.SetTransformations (1.4, 1.5, 1.4) 0 0 0
    (-6, 5.90, 3) ++ sm.SetShaderColor 1 1 1 0.7 ++ m8) ++
    [Effect.draw MeshKind.sphere]
  -- lower cup cone
  let m9 ← sm.SetShaderMaterial "glass"
  let d9 := pushes (sm.SetTransformations (1.3, 0.5, 1.3) 0 0 0
    (-6, 3, 3) ++ sm.SetShaderColor 1 1 1 0.3 ++ m9) ++
    [Effect.draw MeshKind.cone]
  -- smoothing cone at top of stem
  let m10 ← sm.SetShaderMaterial "glass"
  let d10 := pushes (sm.SetTransformations (1, -1, 1) 0 0 0 (-6, 5, 3) ++
    sm.SetShaderColor 1 1 1 0.3 ++ m10) ++ [Effect.draw MeshKind.cone]
  -- book pages box, material pushed after the draw call in the source
  let m11 ← sm.SetShaderMaterial "paper"
  let d11 := pushes (sm.SetTransformations (15, 2, 10) 0 0 0
    (-2, 1, 2.5) ++ sm.SetShaderTexture "pages_texture" ++
    sm.SetTextureUVScale 1 1) ++ [Effect.draw MeshKind.box] ++ pushes m11
  -- book cover box
  let m12 ← sm.SetShaderMaterial "paper"
  let d12 := pushes (sm.SetTransformations (10.5, 0.25, 15.5) 0 90 0
    (-2, 2, 2.5) ++ sm.SetShaderTexture "bookcover_texture" ++
    sm.SetTextureUVScale 1 1 ++ m12) ++ [Effect.draw MeshKind.box]
  -- book bottom cover box
  let m13 ← sm.SetShaderMaterial "paper"
  let d13 := pushes (sm.SetTransformations (10.5, 0.25, 15.5) 0 90 0
    (-2, -0.25, 2.5) ++ sm.SetShaderTexture "bookcover_texture" ++
    sm.SetTextureUVScale 1 1 ++ m13) ++ [Effect.draw MeshKind.box]
  -- book spine box
  let m14 ← sm.SetShaderMaterial "paper"
  let d14 := pushes (sm.SetTransformations (15.5, 0.25, 2.5) 90 0 0
    (-2, 0.90, 7.75) ++ sm.SetShaderTexture "bookside_texture" ++
    sm.SetTextureUVScale 1 1 ++ m14) ++ [Effect.draw MeshKind.box]
  -- back drywall plane
  let m15 ← sm.SetShaderMaterial "backdrop"
  let d15 := pushes (sm.SetTransformations (50, 0.25, 30) 90 0 0
    (0, 20, -4) ++ sm.SetShaderTexture "wall_texture" ++
    sm.SetTextureUVScale 1 1 ++ m15) ++ [Effect.draw MeshKind.plane]
  -- apple sphere
  let m16 ← sm.SetShaderMaterial "apple"
  let d16 := pushes (sm.SetTransformations (3, 1.6, 3) (-1) 90 (-10)
    (1.7, 3.4, 3) ++ sm.SetShaderColor 1 1 1 1.0 ++
    sm.SetShaderTexture "apple_texture" ++ m16) ++
    [Effect.draw MeshKind.sphere]
  Except.ok (d1 ++ d2 ++ d3 ++ d4 ++ d5 ++ d6 ++ d7 ++ d8 ++ d9 ++ d10 ++
    d11 ++ d12 ++ d13 ++ d14 ++ d15 ++ d16)

/-! ## ViewManager: mouse position and scroll callbacks -/

/-- The mouse state of ViewManager.cpp: gLastX, gLastY, gFirstMouse. -/
structure MouseState where
  lastX : ℚ
  lastY : ℚ
  firstMouse : Bool
deriving DecidableEq

/-- The initial mouse state: gLastX = WINDOW_WIDTH / 2 = 500,
gLastY = WINDOW_HEIGHT / 2 = 400, gFirstMouse = true. -/
def initMouseState : MouseState := ⟨500, 400, true⟩

/-- Mouse_Position_Callback, lines 93-108 of ViewManager.cpp: on the first
event the last position is seeded from the event itself, then the offset
(x forward, y inverted) is computed against the last position, the last
position is updated, and the offset is fed to ProcessMouseMovement of the
camera collaborator.  Returns (new state, offset fed to the camera). -/
def mousePositionCallback (st : MouseState) (xMousePos yMousePos : ℚ) :
    MouseState × (ℚ × ℚ) :=
  let st1 := if st.firstMouse then
    (⟨xMousePos, yMousePos, false⟩ : MouseState) else st
  let xOffset := xMousePos - st1.lastX
  let yOffset := st1.lastY - yMousePos
  (⟨xMousePos, yMousePos, st1.firstMouse⟩, (xOffset, yOffset))

/-- Run a sequence of cursor-position events through the callback,
collecting the offsets fed to the look-direction update. -/
def processMouse (st : MouseState) : List (ℚ × ℚ) → List (ℚ × ℚ)
  | [] => []
  | p :: rest =>
    let r := mousePositionCallback st p.1 p.2
    r.2 :: processMouse r.1 rest

/-- Mouse_Scroll_Callback, lines 113-131 of ViewManager.cpp: positive
scroll adds 2.0 to the movement speed, negative scroll subtracts 2.0 and
clamps at the minimum speed 1.0, zero scroll changes nothing. -/
def mouseScrollCallback (movementSpeed : ℚ) (yOffset : ℚ) : ℚ :=
  if yOffset > 0 then movementSpeed + 2.0
  else if yOffset < 0 then
    let reduced := movementSpeed - 2.0
    if reduced < 1.0 then 1.0 else reduced
  else movementSpeed

/-- Apply a sequence of scroll events to the movement speed. -/
def applyScrolls (events : List ℚ) (movementSpeed : ℚ) : ℚ :=
  events.foldl mouseScrollCallback movementSpeed

/-! ## Specification-side transform matrices

The following matrices are written from the words of the specification
(Translate, RotateZ, RotateY, RotateX, Scale as the standard elementary
transform matrices), to be compared with the glm product computed by
SetTransformations. -/

/-- Specification Scale(S): the diagonal scaling matrix. -/
noncomputable def specScale (s : V3) : Mat4 :=
  !![s.1, 0, 0, 0;
     0, s.2.1, 0, 0;
     0, 0, s.2.2, 0;
     0, 0, 0, 1]

/-- Specification Translate(T): identity with T in the last column. -/
noncomputable def specTranslate (t : V3) : Mat4 :=
  !![1, 0, 0, t.1;
     0, 1, 0, t.2.1;
     0, 0, 1, t.2.2;
     0, 0, 0, 1]

/-- Specification RotateX: the elementary rotation about the x axis. -/
noncomputable def specRotateX (theta : ℝ) : Mat4 :=
  !![1, 0, 0, 0;
     0, Real.cos theta, -Real.sin theta, 0;
     0, Real.sin theta, Real.cos theta, 0;
     0, 0, 0, 1]

/-- Specification RotateY: the elementary rotation about the y axis. -/
noncomputable def specRotateY (theta : ℝ) : Mat4 :=
  !![Real.cos theta, 0, Real.sin theta, 0;
     0, 1, 0, 0;
     -Real.sin theta, 0, Real.cos theta, 0;
     0, 0, 0, 1]

/-- Specification RotateZ: the elementary rotation about the z axis. -/
noncomputable def specRotateZ (theta : ℝ) : Mat4 :=
  !![Real.cos theta, -Real.sin theta, 0, 0;
     Real.sin theta, Real.cos theta, 0, 0;
     0, 0, 1, 0;
     0, 0, 0, 1]

/-! ## Small observation helpers -/

/-- Extract the mesh load requests from an effect list. -/
def meshLoadsOf : List Effect → List MeshKind
  | [] => []
  | Effect.meshLoad m :: rest => m :: meshLoadsOf rest
  | _ :: rest => meshLoadsOf rest

/-! # Helper lemmas -/

/-- A linear scan over entries none of which carries the tag returns the
not-found sentinel. -/
lemma findTextureSlotLoop_notfound (l : List TextureEntry) (tag : String)
    (k : Int) (h : ∀ e ∈ l, e.tag ≠ tag) :
    findTextureSlotLoop l tag k = -1 := by
  induction l generalizing k with
  | nil => rfl
  | cons e rest ih =>
    have he : e.tag ≠ tag := h e (List.mem_cons_self e rest)
    simp only [findTextureSlotLoop, if_neg he]
    exact ih (k + 1) (fun x hx => h x (List.mem_cons_of_mem e hx))

/-- Scanning past non-matching entries to a freshly appended entry yields
the slot of the appended entry. -/
lemma findTextureSlotLoop_append_fresh (l : List TextureEntry) (tag : String)
    (id : Nat) (k : Int) (h : ∀ e ∈ l, e.tag ≠ tag) :
    findTextureSlotLoop (l ++ [⟨id, tag⟩]) tag k = k + l.length := by
  induction l generalizing k with
  | nil => simp [findTextureSlotLoop]
  | cons e rest ih =>
    have he : e.tag ≠ tag := h e (List.mem_cons_self e rest)
    simp only [List.cons_append, findTextureSlotLoop, if_neg he,
      List.append_eq]
    rw [ih (k + 1) (fun x hx => h x (List.mem_cons_of_mem e hx))]
    simp only [List.length_cons]
    push_cast
    ring

/-- Scanning past non-matching entries to a freshly appended entry yields
the handle of the appended entry. -/
lemma findTextureIDLoop_append_fresh (l : List TextureEntry) (tag : String)
    (id : Nat) (h : ∀ e ∈ l, e.tag ≠ tag) :
    findTextureIDLoop (l ++ [⟨id, tag⟩]) tag = id := by
  induction l with
  | nil => simp [findTextureIDLoop]
  | cons e rest ih =>
    have he : e.tag ≠ tag := h e (List.mem_cons_self e rest)
    simp only [List.cons_append, findTextureIDLoop, if_neg he,
      List.append_eq]
    exact ih (fun x hx => h x (List.mem_cons_of_mem e hx))

/-- The slot scan returns the sentinel or an index in the window scanned. -/
lemma findTextureSlotLoop_lt (l : List TextureEntry) (tag : String)
    (k : Int) :
    findTextureSlotLoop l tag k = -1 ∨
      (k ≤ findTextureSlotLoop l tag k ∧
        findTextureSlotLoop l tag k < k + l.length) := by
  induction l generalizing k with
  | nil => exact Or.inl rfl
  | cons e rest ih =>
    by_cases he : e.tag = tag
    · right
      simp only [findTextureSlotLoop, if_pos he, List.length_cons]
      push_cast
      omega
    · simp only [findTextureSlotLoop, if_neg he, List.length_cons]
      rcases ih (k + 1) with h1 | ⟨h2, h3⟩
      · exact Or.inl h1
      · right
        push_cast at h3 ⊢
        omega

/-- The bind loop started at unit k binds the entry at index i to unit
k + i. -/
lemma bindLoop_get (l : List TextureEntry) :
    ∀ (k i : Nat) (h : i < l.length),
      (bindLoop l k).get? i = some (k + i, (l.get ⟨i, h⟩).ID) := by
  induction l with
  | nil => intro k i h; exact absurd h (by simp)
  | cons e rest ih =>
    intro k i h
    cases i with
    | zero => simp [bindLoop]
    | succ j =>
      have hj : j < rest.length := by
        simpa [List.length_cons] using h
      simp only [bindLoop, List.get?_cons_succ]
      rw [ih (k + 1) j hj]
      simp [Nat.add_assoc, Nat.add_comm 1 j]

/-- One scroll event keeps the movement speed at or above the floor. -/
lemma mouseScrollCallback_ge_one (s y : ℚ) (h : 1 ≤ s) :
    1 ≤ mouseScrollCallback s y := by
  unfold mouseScrollCallback
  split
  · linarith
  · split
    · dsimp only
      split <;> linarith
    · exact h

/-- Any sequence of scroll events keeps the movement speed at or above the
floor. -/
lemma applyScrolls_ge_one (events : List ℚ) (s : ℚ) (h : 1 ≤ s) :
    1 ≤ applyScrolls events s := by
  induction events generalizing s with
  | nil => exact h
  | cons y rest ih =>
    exact ih (mouseScrollCallback s y) (mouseScrollCallback_ge_one s y h)

/-- The floor speed 1 is a fixed point of negative scrolling. -/
lemma applyScrolls_neg_fix (n : Nat) :
    applyScrolls (List.replicate n (-1)) 1 = 1 := by
  induction n with
  | zero => rfl
  | succ m ih =>
    have hstep : mouseScrollCallback 1 (-1) = 1 := by
      norm_num [mouseScrollCallback]
    simpa [applyScrolls, List.replicate_succ, List.foldl_cons, hstep]
      using ih

/-- One hundred negative scroll events from speed 5 end exactly at the
floor. -/
lemma applyScrolls_hundred :
    applyScrolls (List.replicate 100 (-1)) 5 = 1 := by
  have h1 : mouseScrollCallback 5 (-1) = 3 := by
    norm_num [mouseScrollCallback]
  have h2 : mouseScrollCallback 3 (-1) = 1 := by
    norm_num [mouseScrollCallback]
  have hrepl : List.replicate 100 (-1 : ℚ) =
      -1 :: -1 :: List.replicate 98 (-1) := rfl
  rw [applyScrolls, hrepl, List.foldl_cons, List.foldl_cons, h1, h2]
  exact applyScrolls_neg_fix 98

/-- With the first-event flag already cleared, each event reports the
displacement from the remembered position. -/
lemma processMouse_false_cons (q p : ℚ × ℚ) (rest : List (ℚ × ℚ)) :
    processMouse ⟨q.1, q.2, false⟩ (p :: rest) =
      (p.1 - q.1, q.2 - p.2) :: processMouse ⟨p.1, p.2, false⟩ rest := by
  simp [processMouse, mousePositionCallback]

/-- With the first-event flag set, the first event only seeds the
remembered position and reports a zero offset. -/
lemma processMouse_fresh_cons (st : MouseState) (p : ℚ × ℚ)
    (rest : List (ℚ × ℚ)) (h : st.firstMouse = true) :
    processMouse st (p :: rest) =
      (0, 0) :: processMouse ⟨p.1, p.2, false⟩ rest := by
  simp [processMouse, mousePositionCallback, h]

/-- With the first-event flag cleared and remembered position q, the
offset at index i is the displacement from the previous event (or from q
for the first event of the list). -/
lemma processMouse_false_get (l : List (ℚ × ℚ)) :
    ∀ (q : ℚ × ℚ) (i : Nat) (h : i < l.length),
      (processMouse ⟨q.1, q.2, false⟩ l).get? i =
        some ((l.get ⟨i, h⟩).1 -
            ((q :: l).get ⟨i, by simp only [List.length_cons]; omega⟩).1,
          ((q :: l).get ⟨i, by simp only [List.length_cons]; omega⟩).2 -
            (l.get ⟨i, h⟩).2) := by
  induction l with
  | nil => intro q i h; exact absurd h (by simp)
  | cons p rest ih =>
    intro q i h
    rw [processMouse_false_cons]
    cases i with
    | zero => rfl
    | succ j =>
      have hj : j < rest.length := by simpa [List.length_cons] using h
      simp only [List.get?_cons_succ]
      rw [ih p j hj]
      rfl

/-- The glm axis-angle rotation about the unit x axis is the elementary
rotation about x. -/
lemma glmRotate_unitX (theta : ℝ) :
    glmRotate theta (1, 0, 0) = specRotateX theta := by
  unfold glmRotate specRotateX
  norm_num

/-- The glm axis-angle rotation about the unit y axis is the elementary
rotation about y. -/
lemma glmRotate_unitY (theta : ℝ) :
    glmRotate theta (0, 1, 0) = specRotateY theta := by
  unfold glmRotate specRotateY
  norm_num

/-- The glm axis-angle rotation about the unit z axis is the elementary
rotation about z. -/
lemma glmRotate_unitZ (theta : ℝ) :
    glmRotate theta (0, 0, 1) = specRotateZ theta := by
  unfold glmRotate specRotateZ
  norm_num

/-- Rotation by a zero angle is the identity, whatever the axis. -/
lemma glmRotate_zero (axis : V3) : glmRotate 0 axis = 1 := by
  unfold glmRotate
  ext i j
  fin_cases i <;> fin_cases j <;>
    simp [Real.cos_zero, Real.sin_zero, Matrix.one_apply, Matrix.vecHead,
      Matrix.vecTail]

/-- Zero degrees is zero radians. -/
lemma glmRadians_zero : glmRadians 0 = 0 := by
  unfold glmRadians; ring

/-! # Claim theorems -/

/-- Claim C1 (evaluation of the code at the failing input): on a registry
holding one material tagged metal, FindMaterial for the absent tag wood
returns true, not the not-found sentinel false, and passes the stale
input material through unchanged.  The claim says the lookup must return
false whenever no entry matches; the code satisfies this only on an empty
registry. -/
theorem C1_findMaterial_nonmatching_returns_true_stale :
    SceneManager.FindMaterial
      ⟨false, [], [⟨(40.4, 0.4, 0), (50.7, 50.7, 40.6), 90, "metal"⟩], 0⟩
      "wood" ⟨(1, 2, 3), (4, 5, 6), 7, "junk"⟩ =
      (true, ⟨(1, 2, 3), (4, 5, 6), 7, "junk"⟩) := by
  decide

/-- Claim C2 (evaluation of the code at the failing input): with a null
shader binder, PrepareScene dereferences the null binder in
SetupSceneLights and RenderScene dereferences it in SetShaderMaterial once
materials are defined, so neither completes without error, contradicting
the claim that every scene operation skips uniform pushes silently.  The
four guarded setters do skip silently. -/
theorem C2_null_binder_not_tolerated :
    SceneManager.PrepareScene ⟨true, [], [], 0⟩ (fun _ => none) =
      Except.error () ∧
    SceneManager.RenderScene
      (SceneManager.DefineObjectMaterials ⟨true, [], [], 0⟩) =
      Except.error () ∧
    SceneManager.SetTransformations ⟨true, [], [], 0⟩ (1, 1, 1) 0 0 0
      (0, 0, 0) = [] ∧
    SceneManager.SetShaderColor ⟨true, [], [], 0⟩ 1 1 1 1 = [] ∧
    SceneManager.SetShaderTexture ⟨true, [], [], 0⟩ "counter_texture" = [] ∧
    SceneManager.SetTextureUVScale ⟨true, [], [], 0⟩ 1 1 = [] :=
  ⟨rfl, rfl, rfl, rfl, rfl, rfl⟩

/-- Claim C3 (evaluation of the code at the failing input): a single call
to PrepareScene issues the plane mesh load request twice, contradicting
the claim that each mesh primitive type is loaded exactly once. -/
theorem C3_prepare_loads_plane_twice :
    (SceneManager.PrepareScene ⟨false, [], [], 0⟩
        (fun _ => some (2, 2, 3))).map
      (fun r => (meshLoadsOf r.1).count MeshKind.plane) = Except.ok 2 ∧
    prepareSceneMeshLoads.count MeshKind.plane = 2 :=
  ⟨rfl, rfl⟩

/-- Claim C4: for every scale, rotation angles in degrees and translation,
the model matrix pushed by SetTransformations equals
Translate T times RotateZ rz times RotateY ry times RotateX rx times
Scale S, built from the elementary specification matrices; and the point
(1,1,1) under scale (2,1,1), zero rotation and translation (5,0,0) maps to
(7,1,1). -/
theorem C4_model_matrix_composition :
    (∀ (sm : SceneManager) (s : V3) (rx ry rz : ℝ) (t : V3),
      sm.shaderNull = false →
      sm.SetTransformations s rx ry rz t =
        [PushOp.mat4 "model"
          (specTranslate t * specRotateZ (glmRadians rz) *
            specRotateY (glmRadians ry) * specRotateX (glmRadians rx) *
            specScale s)]) ∧
    (modelMatrix (2, 1, 1) 0 0 0 (5, 0, 0)).mulVec ![1, 1, 1, 1] =
      ![7, 1, 1, 1] := by
  constructor
  · intro sm s rx ry rz t hs
    have hts : glmTranslate t = specTranslate t := rfl
    have hss : glmScale s = specScale s := rfl
    simp only [SceneManager.SetTransformations, hs, Bool.false_eq_true,
      if_false, modelMatrix, glmRotate_unitX, glmRotate_unitY,
      glmRotate_unitZ, hts, hss]
  · unfold modelMatrix
    rw [glmRadians_zero, glmRotate_zero, glmRotate_zero, glmRotate_zero]
    simp only [mul_one]
    funext i
    fin_cases i <;>
      norm_num [Matrix.mulVec, Matrix.dotProduct, Fin.sum_univ_four,
        glmTranslate, glmScale, Matrix.mul_apply, Matrix.vecHead,
        Matrix.vecTail]

/-- Witness for C4 at a concrete non-null state and the example transform
parameters. -/
theorem C4_witness :
    ((⟨false, [], [], 0⟩ : SceneManager).shaderNull = false) ∧
    SceneManager.SetTransformations ⟨false, [], [], 0⟩ (2, 1, 1) 0 0 0
      (5, 0, 0) =
      [PushOp.mat4 "model"
        (specTranslate (5, 0, 0) * specRotateZ (glmRadians 0) *
          specRotateY (glmRadians 0) * specRotateX (glmRadians 0) *
          specScale (2, 1, 1))] :=
  ⟨rfl, C4_model_matrix_composition.1 ⟨false, [], [], 0⟩ (2, 1, 1) 0 0 0
    (5, 0, 0) rfl⟩

/-- Claim C5: for every decoded image whose channel count is neither 3 nor
4, CreateGLTexture returns failure, leaves the texture registry unchanged
and leaves every lookup for the requested tag unchanged. -/
theorem C5_unsupported_channels_rejected (sm : SceneManager) (w ht : Nat)
    (ch : Int) (tag : String) (h3 : ch ≠ 3) (h4 : ch ≠ 4) :
    (sm.CreateGLTexture (some (w, ht, ch)) tag).1 = false ∧
    ((sm.CreateGLTexture (some (w, ht, ch)) tag).2).textureIDs =
      sm.textureIDs ∧
    ((sm.CreateGLTexture (some (w, ht, ch)) tag).2).FindTextureSlot tag =
      sm.FindTextureSlot tag := by
  have hch : ¬(ch = 3 ∨ ch = 4) := by tauto
  simp [SceneManager.CreateGLTexture, hch, SceneManager.FindTextureSlot]

/-- Witness for C5 at a two-channel image on an empty registry. -/
theorem C5_witness :
    ((2 : Int) ≠ 3) ∧ ((2 : Int) ≠ 4) ∧
    ((SceneManager.CreateGLTexture ⟨false, [], [], 0⟩ (some (4, 4, 2))
        "gray").1 = false ∧
      ((SceneManager.CreateGLTexture ⟨false, [], [], 0⟩ (some (4, 4, 2))
          "gray").2).textureIDs = ([] : List TextureEntry) ∧
      ((SceneManager.CreateGLTexture ⟨false, [], [], 0⟩ (some (4, 4, 2))
          "gray").2).FindTextureSlot "gray" =
        SceneManager.FindTextureSlot ⟨false, [], [], 0⟩ "gray") :=
  ⟨by decide, by decide,
    C5_unsupported_channels_rejected ⟨false, [], [], 0⟩ 4 4 2 "gray"
      (by decide) (by decide)⟩

/-- Counterexample to claim C6 as stated: on a registry already holding a
texture tagged t with handle 5 and slot 0, a successful 3-channel load
with the same tag t appends an entry with slot 1 and handle 6, yet the
subsequent FindTextureSlot and FindTextureID return 0 and 5, the slot and
handle of the EARLIER registration, because the lookup is first-match. -/
theorem C6_duplicate_tag_counterexample :
    (SceneManager.CreateGLTexture ⟨false, [⟨5, "t"⟩], [], 6⟩
      (some (2, 2, 3)) "t").1 = true ∧
    (SceneManager.CreateGLTexture ⟨false, [⟨5, "t"⟩], [], 6⟩
      (some (2, 2, 3)) "t").2.textureIDs = [⟨5, "t"⟩, ⟨6, "t"⟩] ∧
    (SceneManager.CreateGLTexture ⟨false, [⟨5, "t"⟩], [], 6⟩
      (some (2, 2, 3)) "t").2.FindTextureSlot "t" = 0 ∧
    (SceneManager.CreateGLTexture ⟨false, [⟨5, "t"⟩], [], 6⟩
      (some (2, 2, 3)) "t").2.FindTextureID "t" = 5 := by
  decide

/-- Claim C6 as amended: provided the tag is not already registered (and
all registered handles are below the fresh-name counter), a successful
3-or-4-channel load makes FindTextureSlot and FindTextureID return the
slot and handle assigned by that load, the slot being the fresh index one
past all earlier slots and the handle fresh among all earlier handles. -/
theorem C6_fresh_tag_lookup (sm : SceneManager) (w ht : Nat) (ch : Int)
    (tag : String)
    (hfresh : ∀ e ∈ sm.textureIDs, e.tag ≠ tag)
    (hinv : ∀ e ∈ sm.textureIDs, e.ID < sm.nextTexHandle)
    (hch : ch = 3 ∨ ch = 4) :
    (sm.CreateGLTexture (some (w, ht, ch)) tag).1 = true ∧
    (sm.CreateGLTexture (some (w, ht, ch)) tag).2.FindTextureSlot tag =
      (sm.textureIDs.length : Int) ∧
    (sm.CreateGLTexture (some (w, ht, ch)) tag).2.FindTextureID tag =
      (sm.nextTexHandle : Int) ∧
    (∀ e ∈ sm.textureIDs, e.ID ≠ sm.nextTexHandle) ∧
    (∀ t0 : String,
      sm.FindTextureSlot t0 < (sm.textureIDs.length : Int)) := by
  refine ⟨?_, ?_, ?_, ?_, ?_⟩
  · simp [SceneManager.CreateGLTexture, hch]
  · simp only [SceneManager.CreateGLTexture, if_pos hch,
      SceneManager.FindTextureSlot]
    rw [findTextureSlotLoop_append_fresh sm.textureIDs tag sm.nextTexHandle
      0 hfresh]
    ring
  · simp only [SceneManager.CreateGLTexture, if_pos hch,
      SceneManager.FindTextureID]
    exact findTextureIDLoop_append_fresh sm.textureIDs tag sm.nextTexHandle
      hfresh
  · intro e he
    exact Nat.ne_of_lt (hinv e he)
  · intro t0
    rcases findTextureSlotLoop_lt sm.textureIDs t0 0 with h1 | ⟨h2, h3⟩
    · rw [SceneManager.FindTextureSlot, h1]
      omega
    · rw [SceneManager.FindTextureSlot]
      omega

/-- Witness for the amended C6: loading a fresh tag b over a registry
holding only tag a. -/
theorem C6_fresh_tag_lookup_witness :
    (∀ e ∈ ([⟨0, "a"⟩] : List TextureEntry), e.tag ≠ "b") ∧
    (∀ e ∈ ([⟨0, "a"⟩] : List TextureEntry), e.ID < 1) ∧
    ((4 : Int) = 3 ∨ (4 : Int) = 4) ∧
    ((SceneManager.CreateGLTexture ⟨false, [⟨0, "a"⟩], [], 1⟩
        (some (1, 1, 4)) "b").1 = true ∧
      (SceneManager.CreateGLTexture ⟨false, [⟨0, "a"⟩], [], 1⟩
        (some (1, 1, 4)) "b").2.FindTextureSlot "b" =
        (([⟨0, "a"⟩] : List TextureEntry).length : Int) ∧
      (SceneManager.CreateGLTexture ⟨false, [⟨0, "a"⟩], [], 1⟩
        (some (1, 1, 4)) "b").2.FindTextureID "b" = ((1 : Nat) : Int) ∧
      (∀ e ∈ ([⟨0, "a"⟩] : List TextureEntry), e.ID ≠ 1) ∧
      (∀ t0 : String,
        SceneManager.FindTextureSlot ⟨false, [⟨0, "a"⟩], [], 1⟩ t0 <
          (([⟨0, "a"⟩] : List TextureEntry).length : Int))) :=
  ⟨by decide, by decide, Or.inr rfl,
    C6_fresh_tag_lookup ⟨false, [⟨0, "a"⟩], [], 1⟩ 1 1 4 "b" (by decide)
      (by decide) (Or.inr rfl)⟩

/-- Claim C7: BindGLTextures binds the texture registered at index i to
hardware texture unit i, for every i below the number of registered
textures, in registration order. -/
theorem C7_bind_in_registration_order (sm : SceneManager) (i : Nat)
    (h : i < sm.textureIDs.length) :
    sm.BindGLTextures.get? i = some (i, (sm.textureIDs.get ⟨i, h⟩).ID) := by
  have hb := bindLoop_get sm.textureIDs 0 i h
  simpa [SceneManager.BindGLTextures] using hb

/-- Witness for C7 on a registry of two textures at index 1. -/
theorem C7_witness :
    (1 < ([⟨7, "a"⟩, ⟨9, "b"⟩] : List TextureEntry).length) ∧
    (SceneManager.BindGLTextures ⟨false, [⟨7, "a"⟩, ⟨9, "b"⟩], [], 10⟩).get?
      1 = some (1, 9) :=
  ⟨by decide,
    C7_bind_in_registration_order ⟨false, [⟨7, "a"⟩, ⟨9, "b"⟩], [], 10⟩ 1
      (by decide)⟩

/-- Claim C8: for every sequence of scroll events, a movement speed
starting at or above the floor 1.0 never falls below 1.0; and one hundred
consecutive negative-scroll events from speed 5 leave the speed exactly at
the floor. -/
theorem C8_speed_floor :
    (∀ (events : List ℚ) (s : ℚ), 1 ≤ s → 1 ≤ applyScrolls events s) ∧
    applyScrolls (List.replicate 100 (-1)) 5 = 1 :=
  ⟨fun events s h => applyScrolls_ge_one events s h, applyScrolls_hundred⟩

/-- Witness for C8 on three negative scrolls from speed 5. -/
theorem C8_witness :
    ((1 : ℚ) ≤ 5) ∧ (1 ≤ applyScrolls [(-1), (-1), (-1)] 5) :=
  ⟨by norm_num, C8_speed_floor.1 [(-1), (-1), (-1)] 5 (by norm_num)⟩

/-- Claim C9: from a fresh mouse state, the first movement event feeds a
zero offset to the look-direction update (it only seeds the last
position), and every subsequent event feeds the displacement since the
previous event, x forward and y inverted. -/
theorem C9_first_event_zero_then_deltas (events : List (ℚ × ℚ)) :
    (events ≠ [] →
      (processMouse initMouseState events).get? 0 = some (0, 0)) ∧
    (∀ (i : Nat) (h : i + 1 < events.length),
      (processMouse initMouseState events).get? (i + 1) =
        some ((events.get ⟨i + 1, h⟩).1 -
            (events.get ⟨i, Nat.lt_of_succ_lt h⟩).1,
          (events.get ⟨i, Nat.lt_of_succ_lt h⟩).2 -
            (events.get ⟨i + 1, h⟩).2)) := by
  cases events with
  | nil =>
    constructor
    · intro hne; exact absurd rfl hne
    · intro i h; exact absurd h (by simp)
  | cons p rest =>
    constructor
    · intro _
      rw [processMouse_fresh_cons initMouseState p rest rfl]
      rfl
    · intro i h
      rw [processMouse_fresh_cons initMouseState p rest rfl]
      have hi : i < rest.length := by simpa using h
      simp only [List.get?_cons_succ]
      rw [processMouse_false_get rest p i hi]
      rfl

/-- Witness for C9 on a two-event sequence: the first offset is zero and
the second is the displacement (13 - 10, 20 - 15). -/
theorem C9_witness :
    (([((10 : ℚ), (20 : ℚ)), (13, 15)] : List (ℚ × ℚ)) ≠ []) ∧
    (processMouse initMouseState [((10 : ℚ), (20 : ℚ)), (13, 15)]).get? 0 =
      some (0, 0) ∧
    (processMouse initMouseState [((10 : ℚ), (20 : ℚ)), (13, 15)]).get? 1 =
      some (3, 5) := by
  refine ⟨by decide,
    (C9_first_event_zero_then_deltas [((10 : ℚ), (20 : ℚ)), (13, 15)]).1
      (by decide), ?_⟩
  have h2 := (C9_first_event_zero_then_deltas
    [((10 : ℚ), (20 : ℚ)), (13, 15)]).2 0 (by decide)
  norm_num at h2
  exact h2

/-- Claim C10: for a tag carried by no registered texture, SetShaderTexture
with a non-null shader binder still enables texturing and pushes the
not-found sentinel -1 as the sampler slot, with no validity check. -/
theorem C10_missing_tag_pushes_minus_one (sm : SceneManager) (tag : String)
    (hs : sm.shaderNull = false)
    (hmiss : ∀ e ∈ sm.textureIDs, e.tag ≠ tag) :
    sm.FindTextureSlot tag = -1 ∧
    sm.SetShaderTexture tag =
      [PushOp.int "bUseTexture" 1,
        PushOp.sampler2D "objectTexture" (-1)] := by
  have hslot : sm.FindTextureSlot tag = -1 :=
    findTextureSlotLoop_notfound sm.textureIDs tag 0 hmiss
  refine ⟨hslot, ?_⟩
  simp [SceneManager.SetShaderTexture, hs, hslot]

/-- Witness for C10 on a registry holding one texture, looking up an
absent tag. -/
theorem C10_witness :
    ((⟨false, [⟨3, "wall_texture"⟩], [], 4⟩ : SceneManager).shaderNull =
      false) ∧
    (∀ e ∈ ([⟨3, "wall_texture"⟩] : List TextureEntry),
      e.tag ≠ "missing") ∧
    (SceneManager.FindTextureSlot ⟨false, [⟨3, "wall_texture"⟩], [], 4⟩
        "missing" = -1 ∧
      SceneManager.SetShaderTexture ⟨false, [⟨3, "wall_texture"⟩], [], 4⟩
        "missing" =
        [PushOp.int "bUseTexture" 1,
          PushOp.sampler2D "objectTexture" (-1)]) :=
  ⟨rfl, by decide,
    C10_missing_tag_pushes_minus_one ⟨false, [⟨3, "wall_texture"⟩], [], 4⟩
      "missing" rfl (by decide)⟩
